import Mathlib

/-!
Verification development for the helm reference documentation generator
(`hack/helm-reference-gen/main.go`): a shallow embedding of the document
tree builder (`buildDocNode`), table-of-contents generator (`generateTOC`)
and driver (`GenerateDocs`), together with theorems about them.

The yaml library's node type (`gopkg.in/yaml.v3`'s `yaml.Node`) is embedded
as the inductive `YamlNode`; a Go runtime panic (index out of range) is made
explicit as a distinguished error outcome, so that "returns an error" and
"panics" are distinguishable results of the embedded functions.
-/

/-- The kinds of `yaml.Node` (yaml.v3: DocumentNode, SequenceNode,
MappingNode, ScalarNode, AliasNode). -/
inductive YamlKind where
  | document
  | sequence
  | mapping
  | scalar
  | aliasNode
deriving DecidableEq, Repr

/-- Embedding of `yaml.Node`: the fields read by the generator
(`Kind`, `Tag`, `Value`, `HeadComment`, `Column`, `Content`). -/
inductive YamlNode where
  | mk (kind : YamlKind) (tag : String) (value : String) (headComment : String)
      (column : Nat) (content : List YamlNode)

def YamlNode.kind : YamlNode → YamlKind
  | .mk k _ _ _ _ _ => k

def YamlNode.tag : YamlNode → String
  | .mk _ t _ _ _ _ => t

def YamlNode.value : YamlNode → String
  | .mk _ _ v _ _ _ => v

def YamlNode.headComment : YamlNode → String
  | .mk _ _ _ h _ _ => h

def YamlNode.column : YamlNode → Nat
  | .mk _ _ _ _ c _ => c

def YamlNode.content : YamlNode → List YamlNode
  | .mk _ _ _ _ _ c => c

/-- Embedding of the `DocNode` struct: fields
`Key`, `ParentBreadcrumb`, `ParentWasMap`, `Column`, `Comment`, `KindTag`,
`Default`, `Children`.  (A recursive struct, so an inductive here.) -/
inductive DocNode where
  | mk (Key : String) (ParentBreadcrumb : String) (ParentWasMap : Bool)
      (Column : Nat) (Comment : String) (KindTag : String) (Default : String)
      (Children : List DocNode)

def DocNode.Key : DocNode → String
  | .mk k _ _ _ _ _ _ _ => k

def DocNode.ParentBreadcrumb : DocNode → String
  | .mk _ p _ _ _ _ _ _ => p

def DocNode.ParentWasMap : DocNode → Bool
  | .mk _ _ p _ _ _ _ _ => p

def DocNode.Column : DocNode → Nat
  | .mk _ _ _ c _ _ _ _ => c

def DocNode.Comment : DocNode → String
  | .mk _ _ _ _ c _ _ _ => c

def DocNode.KindTag : DocNode → String
  | .mk _ _ _ _ _ t _ _ => t

def DocNode.Default : DocNode → String
  | .mk _ _ _ _ _ _ d _ => d

def DocNode.Children : DocNode → List DocNode
  | .mk _ _ _ _ _ _ _ c => c

/-- Modelled from the spec: `DocNode.HTMLAnchor` is not under src/ (only its
callers are).  Spec 4.2: "each container node computes an HTML-anchor-style
identifier from its breadcrumb and key (lowercased)" — used both as the
`ParentBreadcrumb` passed to children and as the link target. -/
def DocNode.HTMLAnchor (d : DocNode) : String :=
  d.ParentBreadcrumb ++ "-" ++ d.Key.toLower

/-- Embedding of the `ParseError` struct fields used by `buildDocNode`. -/
structure ParseError where
  ParentAnchor : String
  CurrAnchor : String
  Err : String
deriving DecidableEq

/-- The possible failure outcomes of the embedded builder: a structural
`ParseError`, a Go runtime panic (made explicit), or a generic
`fmt.Errorf` error. -/
inductive BuildErr where
  | parse (e : ParseError)
  | panicked (msg : String)
  | generic (msg : String)
deriving DecidableEq

/-- `p.isPrefixOf`-style check on character lists, written out so all
evaluation is by plain structural recursion. -/
def listStartsWith : List Char → List Char → Bool
  | [], _ => true
  | _ :: _, [] => false
  | p :: ps, c :: cs => p == c && listStartsWith ps cs

/-- Modelled from the spec: the `recurseAnnotation` regular expression and its
`FindStringSubmatch` use are not under src/.  Spec 4.1 and 6: the directive is
a piece of text of the form `@recurse: true` or `@recurse: false` inside the
key's attached comment; anything else does not match.  We scan for the first
occurrence and return the captured boolean. -/
def scanRecurse : List Char → Option Bool
  | [] => none
  | c :: rest =>
    if listStartsWith "@recurse: true".data (c :: rest) then some true
    else if listStartsWith "@recurse: false".data (c :: rest) then some false
    else scanRecurse rest

/-- Modelled from the spec (see `scanRecurse`): the match of the
`@recurse:` directive against a whole comment string. -/
def recurseDirective (comment : String) : Option Bool :=
  scanRecurse comment.data

/-- Embedding of `allScalars` (main.go): true if content contains only scalar
nodes with no children. -/
def allScalars : List YamlNode → Bool
  | [] => true
  | n :: rest =>
    if n.kind != YamlKind.scalar || n.content.length > 0 then false
    else allScalars rest

/-- Modelled from the spec: `toInlineYaml` is not under src/.  Spec 4.3:
"given a sequence of scalar nodes, render them as a single-line bracketed,
comma-separated literal (e.g. `[a, b, c]`)"; the failure case is defensive
and unreachable for scalar content, so the model always succeeds. -/
def toInlineYaml (nodes : List YamlNode) : Except String String :=
  Except.ok ("[" ++ String.intercalate ", " (nodes.map YamlNode.value) ++ "]")

/-- The Go expression `nodeContent[nodeContentIdx+1]` of `buildDocNode`, in
the in-bounds case. -/
def yamlNext (nodeContent : List YamlNode) (nodeContentIdx : Nat)
    (h : nodeContentIdx + 1 < nodeContent.length) : YamlNode :=
  nodeContent.get ⟨nodeContentIdx + 1, h⟩

mutual

/-- Embedding of `buildDocNode` (main.go lines 126-238).  The Go expression
`nodeContent[nodeContentIdx+1]` panics when the index is out of range; the
preceding guard only checks `len(nodeContent) < nodeContentIdx+1`, so the
panic is reachable (when the length is exactly `nodeContentIdx+1`) and is
embedded as the explicit `BuildErr.panicked` outcome. -/
def buildDocNode (nodeContentIdx : Nat) (currNode : YamlNode)
    (nodeContent : List YamlNode) (parentBreadcrumb : String)
    (parentWasMap : Bool) : Except BuildErr DocNode :=
  -- Check for the @recurse: false annotation; construct the node and do not
  -- recurse further.
  if recurseDirective currNode.headComment = some false then
    Except.ok (DocNode.mk currNode.value parentBreadcrumb false currNode.column
      currNode.headComment "" "" [])
  -- "Nodes should come in pairs."
  else if nodeContent.length < nodeContentIdx + 1 then
    Except.error (BuildErr.parse (ParseError.mk parentBreadcrumb currNode.value
      ("content length incorrect, expected " ++ toString (nodeContentIdx + 1)
        ++ " got " ++ toString nodeContent.length)))
  -- `next := nodeContent[nodeContentIdx+1]` — Go panics if out of range.
  else if hidx : nodeContent.length < nodeContentIdx + 2 then
    Except.error (BuildErr.panicked "runtime error: index out of range")
  else
    -- `next` below stands for `nodeContent.get ⟨nodeContentIdx + 1, _⟩`,
    -- written out at each use so the equations stay binder-free.
    match yamlNext nodeContent nodeContentIdx (by omega) |>.kind with
    -- A scalar: a simple key: value node.
    | YamlKind.scalar =>
      Except.ok (DocNode.mk currNode.value parentBreadcrumb parentWasMap
        currNode.column currNode.headComment
        (yamlNext nodeContent nodeContentIdx (by omega)).tag
        (yamlNext nodeContent nodeContentIdx (by omega)).value [])
    -- A map: recurse into it.
    | YamlKind.mapping =>
      match parseNodeContent (yamlNext nodeContent nodeContentIdx (by omega)).content
          (DocNode.HTMLAnchor (DocNode.mk currNode.value parentBreadcrumb
            parentWasMap currNode.column currNode.headComment
            (yamlNext nodeContent nodeContentIdx (by omega)).tag "" []))
          false with
      | Except.error e => Except.error e
      | Except.ok children =>
        Except.ok (DocNode.mk currNode.value parentBreadcrumb parentWasMap
          currNode.column currNode.headComment
          (yamlNext nodeContent nodeContentIdx (by omega)).tag "" children)
    -- A sequence: handled differently depending on its contents.
    | YamlKind.sequence =>
      -- Empty: just a key with a default of empty array.
      if (yamlNext nodeContent nodeContentIdx (by omega)).content.length = 0 then
        Except.ok (DocNode.mk currNode.value parentBreadcrumb parentWasMap
          currNode.column currNode.headComment
          (yamlNext nodeContent nodeContentIdx (by omega)).tag "[]" [])
      -- Full of scalars: stop recursing and use the value as the default.
      else if allScalars (yamlNext nodeContent nodeContentIdx (by omega)).content then
        match toInlineYaml (yamlNext nodeContent nodeContentIdx (by omega)).content with
        | Except.error e =>
          Except.error (BuildErr.parse (ParseError.mk parentBreadcrumb
            currNode.value e))
        | Except.ok inl =>
          Except.ok (DocNode.mk currNode.value parentBreadcrumb parentWasMap
            currNode.column currNode.headComment
            (yamlNext nodeContent nodeContentIdx (by omega)).tag inl [])
      -- Otherwise recurse into each element of the array.
      else
        match parseNodeContent (yamlNext nodeContent nodeContentIdx (by omega)).content
            (DocNode.HTMLAnchor (DocNode.mk currNode.value parentBreadcrumb
              parentWasMap currNode.column currNode.headComment
              (yamlNext nodeContent nodeContentIdx (by omega)).tag "" []))
            false with
        | Except.error e => Except.error e
        | Except.ok children =>
          Except.ok (DocNode.mk currNode.value parentBreadcrumb parentWasMap
            currNode.column currNode.headComment
            (yamlNext nodeContent nodeContentIdx (by omega)).tag "" children)
    | _ =>
      Except.error (BuildErr.generic
        ("fell through cases unexpectedly at breadcrumb: " ++ parentBreadcrumb))
termination_by (sizeOf nodeContent, 0, 0)
decreasing_by
all_goals
  have hy : ∀ y : YamlNode, sizeOf y.content < sizeOf y := by
    intro y
    rcases y with ⟨k, t, v, hc, col, cont⟩
    simp only [YamlNode.content, YamlNode.mk.sizeOf_spec]
    omega
  exact Prod.Lex.left _ _ (Nat.lt_trans (hy _) (List.sizeOf_lt_of_mem (List.getElem_mem _)))

/-- Modelled from the spec: `parseNodeContent` is not under src/ (only its
callers in `buildDocNode` are).  Spec 4.2: mapping content is a flat
alternating sequence of key/value entries; each key node (even index) is
built into a DocNode, in source order. -/
def parseNodeContent (nodeContent : List YamlNode) (parentBreadcrumb : String)
    (parentWasMap : Bool) : Except BuildErr (List DocNode) :=
  parseKeys 0 nodeContent parentBreadcrumb parentWasMap
termination_by (sizeOf nodeContent, 2, 0)

/-- Modelled from the spec (see `parseNodeContent`): the loop over the key
positions `0, 2, 4, ...` of a content list. -/
def parseKeys (i : Nat) (nodeContent : List YamlNode) (parentBreadcrumb : String)
    (parentWasMap : Bool) : Except BuildErr (List DocNode) :=
  if h : i < nodeContent.length then
    match buildDocNode i (nodeContent.get ⟨i, h⟩) nodeContent parentBreadcrumb
        parentWasMap with
    | Except.error e => Except.error e
    | Except.ok d =>
      match parseKeys (i + 2) nodeContent parentBreadcrumb parentWasMap with
      | Except.error e => Except.error e
      | Except.ok ds => Except.ok (d :: ds)
  else
    Except.ok []
termination_by (sizeOf nodeContent, 1, nodeContent.length - i)

end

/-- Embedding of `tocPrefix` (main.go line 15). -/
def tocHead : String :=
  "## Top-Level Stanzas\n\nUse these links to navigate to a particular top-level stanza.\n\n"

/-- Embedding of `tocSuffix` (main.go line 16). -/
def tocSuffix : String := "\n## All Values"

/-- The markdown link line `generateTOC` appends per top-level child:
`fmt.Sprintf("- [%s](#%s)\n", c.Key, strings.ToLower(c.Key))` with the key in
backticks. -/
def tocLine (c : DocNode) : String :=
  "- [`" ++ c.Key ++ "`](#" ++ c.Key.toLower ++ ")\n"

/-- Embedding of `generateTOC` (main.go lines 240-248): starts from the fixed
head, appends one link line per direct child of the root, then the fixed
closing heading. -/
def generateTOC (node : DocNode) : String :=
  (node.Children.foldl (fun toc c => toc ++ tocLine c) tocHead) ++ tocSuffix

/-- The concatenation of the link lines of a child list, written as plain
structural recursion (used to characterise `generateTOC`). -/
def concatTocLines : List DocNode → String
  | [] => ""
  | c :: cs => tocLine c ++ concatTocLines cs

mutual

/-- Modelled from the spec: the table formatter body is not under src/.
Spec 4.4: for each entry, and recursively for each container child, a section
heading (breadcrumb/anchor based) and a table row of key, default value and
description, in tree order. -/
def renderTableNode : DocNode → String
  | DocNode.mk k pb _ _ cm _ dflt children =>
    "| `" ++ k ++ "` | `" ++ dflt ++ "` | " ++ cm ++ " |\n" ++
      (if children.isEmpty then ""
       else "\n### " ++ pb ++ "-" ++ k.toLower ++ "\n" ++
         renderTableNodes children)

/-- Modelled from the spec (see `renderTableNode`): the table rendering of a
list of sibling nodes, in order. -/
def renderTableNodes : List DocNode → String
  | [] => ""
  | d :: ds => renderTableNode d ++ renderTableNodes ds

end

mutual

/-- Modelled from the spec: the list formatter body is not under src/.
Spec 4.5: the same tree as a nested bulleted list of key, default and
description, indentation representing the `Children` relationship. -/
def renderListNode : Nat → DocNode → String
  | depth, DocNode.mk k _ _ _ cm _ dflt children =>
    String.join (List.replicate depth "  ") ++ "- `" ++ k ++ "`: " ++ dflt ++
      " - " ++ cm ++ "\n" ++ renderListNodes (depth + 1) children

/-- Modelled from the spec (see `renderListNode`): the list rendering of a
list of sibling nodes, in order. -/
def renderListNodes : Nat → List DocNode → String
  | _, [] => ""
  | depth, d :: ds => renderListNode depth d ++ renderListNodes depth ds

end

/-- Modelled from the spec: `FormatAsTables` is not under src/.  Spec 4.4: a
table-of-contents section followed by the table rendering of the tree. -/
def FormatAsTables (node : DocNode) : Except BuildErr String :=
  Except.ok (generateTOC node ++ "\n\n" ++ renderTableNodes node.Children)

/-- Modelled from the spec: `FormatAsList` is not under src/.  Spec 4.5: the
same table of contents followed by the nested-list rendering of the tree. -/
def FormatAsList (node : DocNode) : Except BuildErr String :=
  Except.ok (generateTOC node ++ "\n\n" ++ renderListNodes 0 node.Children)

/-- Modelled from the spec: `Parse` is not under src/.  Spec 6: the input is a
configuration document with "a mapping at the root"; the root DocNode's
children are built from the root mapping's key/value content (spec 4.2), and a
document whose root is not a mapping is a structural parse failure (spec 7).
The yaml text-to-node parsing itself is the external yaml library, so the
embedded `Parse` takes the already-parsed root `YamlNode`. -/
def Parse (doc : YamlNode) : Except BuildErr DocNode :=
  match doc.kind with
  | YamlKind.mapping =>
    match parseNodeContent doc.content "" false with
    | Except.error e => Except.error e
    | Except.ok children =>
      Except.ok (DocNode.mk "" "" false 0 "" "" "" children)
  | _ => Except.error (BuildErr.generic "top level node is not a mapping")

/-- Embedding of `GenerateDocs` (main.go lines 100-113): parse the document,
then dispatch on the template name; an unknown template name is reported as
`fmt.Errorf("unknown template name: %q", templateName)`. -/
def GenerateDocs (doc : YamlNode) (templateName : String) : Except BuildErr String :=
  match Parse doc with
  | Except.error e => Except.error e
  | Except.ok node =>
    if templateName == "table" then FormatAsTables node
    else if templateName == "list" then FormatAsList node
    else Except.error (BuildErr.generic
      ("unknown template name: \"" ++ templateName ++ "\""))

mutual

/-- The per-tree invariant behind claim C2: no node of the tree has both a
non-empty `Default` and non-empty `Children`. -/
def treeOK : DocNode → Bool
  | DocNode.mk _ _ _ _ _ _ dflt children =>
    (dflt == "" || children.isEmpty) && treeOKList children

/-- `treeOK` on every element of a list of nodes. -/
def treeOKList : List DocNode → Bool
  | [] => true
  | d :: ds => treeOK d && treeOKList ds

end

/-- A concrete scalar key node (for concrete instances): kind scalar, the
given value and head comment, column 1. -/
def yKey (name comment : String) : YamlNode :=
  YamlNode.mk YamlKind.scalar "!!str" name comment 1 []

/-- A concrete scalar value node. -/
def yStr (v : String) : YamlNode :=
  YamlNode.mk YamlKind.scalar "!!str" v "" 3 []

/-- A concrete mapping node with the given flat key/value content. -/
def yMap (content : List YamlNode) : YamlNode :=
  YamlNode.mk YamlKind.mapping "!!map" "" "" 3 content

/-- A concrete sequence node with the given elements. -/
def ySeq (content : List YamlNode) : YamlNode :=
  YamlNode.mk YamlKind.sequence "!!seq" "" "" 3 content

/-- The annotation branch of `buildDocNode` (main.go lines 129-137): shared
unfolding lemma. -/
theorem buildDocNode_annot_eq (idx : Nat) (curr : YamlNode)
    (content : List YamlNode) (pb : String) (pwm : Bool)
    (h : recurseDirective curr.headComment = some false) :
    buildDocNode idx curr content pb pwm
      = Except.ok (DocNode.mk curr.value pb false curr.column
          curr.headComment "" "" []) := by
  rw [buildDocNode.eq_def, if_pos h]

/-- C1: for every key node whose attached comment carries a `@recurse: false`
annotation, `buildDocNode` returns a leaf DocNode built only from the key's
value and comment, with no Children, and its result does not depend on the
content list at all (so the paired value's structure is never inspected, even
when that value is a mapping or sequence with its own children). -/
theorem buildDocNode_noRecurse_leaf (idx : Nat) (curr : YamlNode)
    (content : List YamlNode) (pb : String) (pwm : Bool)
    (h : recurseDirective curr.headComment = some false) :
    buildDocNode idx curr content pb pwm
      = Except.ok (DocNode.mk curr.value pb false curr.column
          curr.headComment "" "" [])
    ∧ ∀ content' : List YamlNode,
        buildDocNode idx curr content pb pwm
          = buildDocNode idx curr content' pb pwm := by
  refine ⟨buildDocNode_annot_eq idx curr content pb pwm h, fun content' => ?_⟩
  rw [buildDocNode_annot_eq idx curr content pb pwm h,
    buildDocNode_annot_eq idx curr content' pb pwm h]

/-- Witness for C1: the spec 8 example — a key `d` annotated
`@recurse: false` whose value is a nested mapping with grandchildren comes
back as a childless leaf, equal to what the builder returns when the value is
a flat scalar sequence instead. -/
theorem buildDocNode_noRecurse_leaf_w :
    buildDocNode 0 (yKey "d" "# @recurse: false")
        [yKey "d" "# @recurse: false", yMap [yKey "grand" "", yMap [yKey "leaf" "", yStr "1"]]]
        "pb" true
      = Except.ok (DocNode.mk "d" "pb" false 1 "# @recurse: false" "" "" [])
    ∧ buildDocNode 0 (yKey "d" "# @recurse: false")
        [yKey "d" "# @recurse: false", yMap [yKey "grand" "", yMap [yKey "leaf" "", yStr "1"]]]
        "pb" true
      = buildDocNode 0 (yKey "d" "# @recurse: false") [] "pb" true := by
  have h := buildDocNode_noRecurse_leaf 0 (yKey "d" "# @recurse: false")
    [yKey "d" "# @recurse: false", yMap [yKey "grand" "", yMap [yKey "leaf" "", yStr "1"]]]
    "pb" true (by decide)
  constructor
  · rw [h.1]
    simp [yKey, YamlNode.value, YamlNode.column, YamlNode.headComment]
  · exact h.2 []

/-- C10: when the `@recurse: false` annotation matches, `buildDocNode` returns
before the pairing-length check: it succeeds even when the content list holds
no paired value after the key (length at most `nodeContentIdx + 1`), and the
returned node has `ParentWasMap = false` regardless of the `parentWasMap`
argument, with `KindTag` and `Default` left empty. -/
theorem buildDocNode_noRecurse_skips_pairing (idx : Nat) (curr : YamlNode)
    (content : List YamlNode) (pb : String) (pwm : Bool)
    (hann : recurseDirective curr.headComment = some false)
    (_hshort : content.length ≤ idx + 1) :
    buildDocNode idx curr content pb pwm
      = Except.ok (DocNode.mk curr.value pb false curr.column
          curr.headComment "" "" [])
    ∧ (DocNode.mk curr.value pb false curr.column
        curr.headComment "" "" []).ParentWasMap = false
    ∧ (DocNode.mk curr.value pb false curr.column
        curr.headComment "" "" []).KindTag = ""
    ∧ (DocNode.mk curr.value pb false curr.column
        curr.headComment "" "" []).Default = "" := by
  refine ⟨buildDocNode_annot_eq idx curr content pb pwm hann, ?_, ?_, ?_⟩
  · rfl
  · rfl
  · rfl

/-- Witness for C10: a lone annotated key with no paired value at all, called
with `parentWasMap = true`, still succeeds and comes back with
`ParentWasMap = false` and empty `KindTag`/`Default`. -/
theorem buildDocNode_noRecurse_skips_pairing_w :
    buildDocNode 0 (yKey "d" "# @recurse: false") [yKey "d" "# @recurse: false"]
        "pb" true
      = Except.ok (DocNode.mk "d" "pb" false 1 "# @recurse: false" "" "" []) := by
  have h := buildDocNode_noRecurse_skips_pairing 0 (yKey "d" "# @recurse: false")
    [yKey "d" "# @recurse: false"] "pb" true (by decide) (by simp)
  rw [h.1]
  simp [yKey, YamlNode.value, YamlNode.column, YamlNode.headComment]

/-- C4 (the failing boundary case): a key at index 0 whose content list holds
no paired value after it (length exactly `nodeContentIdx + 1`), with no
annotation, makes `buildDocNode` panic (Go: index out of range on
`nodeContent[nodeContentIdx+1]`), because the guard checks
`len(nodeContent) < nodeContentIdx+1` instead of `< nodeContentIdx+2` —
it does not return the structural ParseError the spec promises. -/
theorem buildDocNode_missing_value_panics :
    buildDocNode 0 (yKey "foo" "# port number") [yKey "foo" "# port number"]
        "parent" false
      = Except.error (BuildErr.panicked "runtime error: index out of range") := by
  have h1 : recurseDirective "# port number" = none := by decide
  rw [buildDocNode.eq_def]
  simp [yKey, YamlNode.headComment, h1]

/-- C6: for every key whose paired value is an empty sequence,
`buildDocNode` emits a leaf DocNode whose `Default` is exactly `"[]"` and
which has no Children. -/
theorem buildDocNode_empty_seq (idx : Nat) (curr : YamlNode)
    (content : List YamlNode) (pb : String) (pwm : Bool) (next : YamlNode)
    (hann : ¬ recurseDirective curr.headComment = some false)
    (hlt : idx + 1 < content.length)
    (hnext : yamlNext content idx hlt = next)
    (hkind : next.kind = YamlKind.sequence)
    (hempty : next.content = []) :
    buildDocNode idx curr content pb pwm
      = Except.ok (DocNode.mk curr.value pb pwm curr.column curr.headComment
          next.tag "[]" []) := by
  rw [buildDocNode.eq_def, if_neg hann,
    if_neg (by omega : ¬ content.length < idx + 1),
    dif_neg (by omega : ¬ content.length < idx + 2)]
  simp only [hnext, hkind, hempty, List.length_nil, if_true]

/-- Witness for C6: `e: []` under a parent produces the leaf with default
`[]` and no children. -/
theorem buildDocNode_empty_seq_w :
    buildDocNode 0 (yKey "e" "# list") [yKey "e" "# list", ySeq []] "p" true
      = Except.ok (DocNode.mk "e" "p" true 1 "# list" "!!seq" "[]" []) := by
  have h := buildDocNode_empty_seq 0 (yKey "e" "# list")
    [yKey "e" "# list", ySeq []] "p" true (ySeq []) (by decide) (by decide)
    rfl rfl rfl
  simpa [yKey, ySeq, YamlNode.value, YamlNode.column, YamlNode.headComment,
    YamlNode.tag] using h

/-- C5: for every key whose paired value is a non-empty sequence all of whose
elements are scalars, `buildDocNode` emits a leaf DocNode whose `Default` is
the inline bracketed form of those scalars: the element texts joined by
`", "` enclosed in `[` and `]`. -/
theorem buildDocNode_scalar_seq_inline (idx : Nat) (curr : YamlNode)
    (content : List YamlNode) (pb : String) (pwm : Bool) (next : YamlNode)
    (hann : ¬ recurseDirective curr.headComment = some false)
    (hlt : idx + 1 < content.length)
    (hnext : yamlNext content idx hlt = next)
    (hkind : next.kind = YamlKind.sequence)
    (hne : next.content ≠ [])
    (hall : allScalars next.content = true) :
    buildDocNode idx curr content pb pwm
      = Except.ok (DocNode.mk curr.value pb pwm curr.column curr.headComment
          next.tag
          ("[" ++ String.intercalate ", " (next.content.map YamlNode.value) ++ "]")
          []) := by
  rw [buildDocNode.eq_def, if_neg hann,
    if_neg (by omega : ¬ content.length < idx + 1),
    dif_neg (by omega : ¬ content.length < idx + 2)]
  simp only [hnext, hkind]
  rw [if_neg (by simpa using hne), if_pos hall]
  simp only [toInlineYaml]

/-- Witness for C5: the spec 8 example `b: [1, 2, 3]` produces a leaf whose
default is the elements joined by `", "` inside brackets. -/
theorem buildDocNode_scalar_seq_inline_w :
    buildDocNode 0 (yKey "b" "") [yKey "b" "", ySeq [yStr "1", yStr "2", yStr "3"]]
        "" false
      = Except.ok (DocNode.mk "b" "" false 1 "" "!!seq"
          ("[" ++ String.intercalate ", " ["1", "2", "3"] ++ "]") []) := by
  have h := buildDocNode_scalar_seq_inline 0 (yKey "b" "")
    [yKey "b" "", ySeq [yStr "1", yStr "2", yStr "3"]] "" false
    (ySeq [yStr "1", yStr "2", yStr "3"]) (by decide) (by decide) rfl rfl
    (by simp [ySeq, YamlNode.content]) (by decide)
  simpa [yKey, ySeq, yStr, YamlNode.value, YamlNode.column, YamlNode.headComment,
    YamlNode.tag, YamlNode.content] using h

/-- Every successfully built node carries the `parentBreadcrumb` argument in
its `ParentBreadcrumb` field, and its `ParentWasMap` is either the argument or
`false` (shared helper). -/
theorem buildDocNode_breadcrumb_flag (idx : Nat) (curr : YamlNode)
    (content : List YamlNode) (pb : String) (pwm : Bool) (d : DocNode)
    (h : buildDocNode idx curr content pb pwm = Except.ok d) :
    d.ParentBreadcrumb = pb ∧ (d.ParentWasMap = pwm ∨ d.ParentWasMap = false) := by
  rw [buildDocNode.eq_def] at h
  repeat' split at h
  all_goals first
    | (cases h; exact ⟨rfl, Or.inl rfl⟩)
    | (cases h; exact ⟨rfl, Or.inr rfl⟩)
    | simp at h

/-- Field propagation through the key loop (shared helper): all nodes built by
`parseKeys` carry the given breadcrumb, and their flag is the given one or
`false`. -/
theorem parseKeys_fields (k : Nat) : ∀ (i : Nat) (content : List YamlNode)
    (pb : String) (pwm : Bool) (ds : List DocNode),
    content.length ≤ i + k →
    parseKeys i content pb pwm = Except.ok ds →
    ∀ d ∈ ds, d.ParentBreadcrumb = pb ∧ (d.ParentWasMap = pwm ∨ d.ParentWasMap = false) := by
  induction k with
  | zero =>
    intro i content pb pwm ds hlen h d hd
    rw [parseKeys.eq_def, dif_neg (by omega)] at h
    cases h
    simp at hd
  | succ k ih =>
    intro i content pb pwm ds hlen h d hd
    rw [parseKeys.eq_def] at h
    by_cases hi : i < content.length
    · rw [dif_pos hi] at h
      split at h
      · simp at h
      · rename_i d0 hd0
        split at h
        · simp at h
        · rename_i ds0 hds0
          cases h
          rcases List.mem_cons.mp hd with hd | hd
          · subst hd
            exact buildDocNode_breadcrumb_flag _ _ _ _ _ _ hd0
          · exact ih (i + 2) content pb pwm ds0 (by omega) hds0 d hd
    · rw [dif_neg hi] at h
      cases h
      simp at hd

/-- C8: whenever `buildDocNode` recurses into a container value (a mapping, or
a sequence with non-scalar elements), the children are built by the content
walk with this node's HTML anchor as `ParentBreadcrumb` and with
`parentWasMap = false` — regardless of whether the container was a mapping or
a sequence — and consequently every built child records that anchor and
`ParentWasMap = false`. -/
theorem buildDocNode_container_children_args (idx : Nat) (curr : YamlNode)
    (content : List YamlNode) (pb : String) (pwm : Bool) (next : YamlNode)
    (hann : ¬ recurseDirective curr.headComment = some false)
    (hlt : idx + 1 < content.length)
    (hnext : yamlNext content idx hlt = next)
    (hk : next.kind = YamlKind.mapping ∨
      (next.kind = YamlKind.sequence ∧ next.content ≠ [] ∧
        allScalars next.content = false)) :
    buildDocNode idx curr content pb pwm
      = Except.map
          (fun children => DocNode.mk curr.value pb pwm curr.column
            curr.headComment next.tag "" children)
          (parseNodeContent next.content
            (DocNode.HTMLAnchor (DocNode.mk curr.value pb pwm curr.column
              curr.headComment next.tag "" []))
            false)
    ∧ ∀ ds, parseNodeContent next.content
          (DocNode.HTMLAnchor (DocNode.mk curr.value pb pwm curr.column
            curr.headComment next.tag "" []))
          false = Except.ok ds →
        ∀ d ∈ ds,
          d.ParentBreadcrumb
              = DocNode.HTMLAnchor (DocNode.mk curr.value pb pwm curr.column
                  curr.headComment next.tag "" [])
            ∧ d.ParentWasMap = false := by
  constructor
  · rw [buildDocNode.eq_def, if_neg hann,
      if_neg (by omega : ¬ content.length < idx + 1),
      dif_neg (by omega : ¬ content.length < idx + 2)]
    simp only [hnext]
    rcases hk with hkm | ⟨hks, hne, hnall⟩
    · rw [hkm]
      cases hres : parseNodeContent next.content
          (DocNode.HTMLAnchor (DocNode.mk curr.value pb pwm curr.column
            curr.headComment next.tag "" [])) false <;>
        simp [hres, Except.map]
    · rw [hks]
      rw [if_neg (by simpa using hne), if_neg (by simp [hnall])]
      cases hres : parseNodeContent next.content
          (DocNode.HTMLAnchor (DocNode.mk curr.value pb pwm curr.column
            curr.headComment next.tag "" [])) false <;>
        simp [hres, Except.map]
  · intro ds hds d hd
    rw [parseNodeContent.eq_def] at hds
    have := parseKeys_fields next.content.length 0 next.content
      (DocNode.HTMLAnchor (DocNode.mk curr.value pb pwm curr.column
        curr.headComment next.tag "" []))
      false ds (by omega) hds d hd
    exact ⟨this.1, this.2.elim id id⟩

/-- Witness for C8: a key `a` paired with the mapping `{b: 1}`, called with
breadcrumb `top` and `parentWasMap = true`: the children walk receives the
anchor of `a` and `false`. -/
theorem buildDocNode_container_children_args_w :
    buildDocNode 0 (yKey "a" "") [yKey "a" "", yMap [yKey "b" "", yStr "1"]]
        "top" true
      = Except.map
          (fun children => DocNode.mk "a" "top" true 1 "" "!!map" "" children)
          (parseNodeContent [yKey "b" "", yStr "1"]
            (DocNode.HTMLAnchor (DocNode.mk "a" "top" true 1 "" "!!map" "" []))
            false) := by
  have h := buildDocNode_container_children_args 0 (yKey "a" "")
    [yKey "a" "", yMap [yKey "b" "", yStr "1"]] "top" true
    (yMap [yKey "b" "", yStr "1"]) (by decide) (by decide) rfl (Or.inl rfl)
  simpa [yKey, yMap, YamlNode.value, YamlNode.column, YamlNode.headComment,
    YamlNode.tag, YamlNode.content] using h.1

/-- `foldl` of appending link lines equals the initial string followed by the
concatenated lines (shared helper for the TOC). -/
theorem foldl_tocLine (l : List DocNode) : ∀ init : String,
    l.foldl (fun acc c => acc ++ tocLine c) init = init ++ concatTocLines l := by
  induction l with
  | nil =>
    intro init
    simp [concatTocLines]
  | cons c cs ih =>
    intro init
    simp [List.foldl, concatTocLines, ih, String.append_assoc]

/-- C7: `generateTOC` returns the fixed head, then exactly one markdown link
line per direct child of the root (in order, text the child's Key, target the
Key lowercased), then the fixed closing heading; and it reads nothing of the
tree below depth 1 (any root whose children have the same keys gives the same
TOC). -/
theorem generateTOC_characterisation (node : DocNode) :
    generateTOC node = tocHead ++ concatTocLines node.Children ++ tocSuffix
    ∧ ∀ node' : DocNode,
        node.Children.map DocNode.Key = node'.Children.map DocNode.Key →
        generateTOC node = generateTOC node' := by
  have hmain : ∀ n : DocNode,
      generateTOC n = tocHead ++ concatTocLines n.Children ++ tocSuffix := by
    intro n
    rw [generateTOC, foldl_tocLine]
  have hkeys : ∀ l l' : List DocNode,
      l.map DocNode.Key = l'.map DocNode.Key →
      concatTocLines l = concatTocLines l' := by
    intro l
    induction l with
    | nil =>
      intro l' h
      cases l' with
      | nil => rfl
      | cons c' cs' => simp at h
    | cons c cs ih =>
      intro l' h
      cases l' with
      | nil => simp at h
      | cons c' cs' =>
        simp only [List.map, List.cons.injEq] at h
        simp [concatTocLines, tocLine, h.1, ih cs' h.2]
  exact ⟨hmain node, fun node' hk => by
    rw [hmain node, hmain node', hkeys _ _ hk]⟩

/-- Witness for C7: two roots with the same child key but entirely different
child subtrees produce the same TOC. -/
theorem generateTOC_characterisation_w :
    generateTOC (DocNode.mk "" "" false 0 "" "" ""
        [DocNode.mk "global" "" false 1 "" "" "" []])
      = generateTOC (DocNode.mk "" "" false 0 "" "" ""
          [DocNode.mk "global" "-" false 1 "c" "!!map" ""
            [DocNode.mk "x" "-global" false 3 "" "!!str" "1" []]]) :=
  (generateTOC_characterisation _).2 _ (by
    simp [DocNode.Children, DocNode.Key])

/-- C9: `GenerateDocs` is deterministic — two runs on identical inputs give
identical outputs (the embedded pipeline is a pure function of the document
and the template name). -/
theorem generateDocs_deterministic (d1 d2 : YamlNode) (t1 t2 : String)
    (hd : d1 = d2) (ht : t1 = t2) :
    GenerateDocs d1 t1 = GenerateDocs d2 t2 := by
  rw [hd, ht]

/-- Witness for C9 at a concrete document and template. -/
theorem generateDocs_deterministic_w :
    GenerateDocs (yMap [yKey "a" "", yStr "true"]) "table"
      = GenerateDocs (yMap [yKey "a" "", yStr "true"]) "table" :=
  generateDocs_deterministic _ _ _ _ rfl rfl

/-- Counterexample for C3: on a document whose root is not a mapping and the
unknown template name `bogus`, `GenerateDocs` returns the parse failure, not
an error naming the unknown template — the document is parsed before the
template name is checked. -/
theorem generateDocs_unknown_template_cex :
    GenerateDocs (yStr "v") "bogus"
      = Except.error (BuildErr.generic "top level node is not a mapping")
    ∧ (Except.error (BuildErr.generic "top level node is not a mapping")
        : Except BuildErr String)
      ≠ Except.error (BuildErr.generic
          ("unknown template name: \"" ++ "bogus" ++ "\"")) := by
  constructor
  · simp [GenerateDocs, Parse, yStr, YamlNode.kind]
  · simp

/-- C3 (amended): for every document that parses successfully and every
template name other than `"table"` and `"list"`, `GenerateDocs` returns a
configuration error naming the unknown template; but the parse (a full
traversal) runs first, so a document that fails to parse yields the parse
error instead. -/
theorem generateDocs_unknown_template (doc : YamlNode) (t : String)
    (node : DocNode) (hp : Parse doc = Except.ok node)
    (h1 : t ≠ "table") (h2 : t ≠ "list") :
    GenerateDocs doc t
      = Except.error (BuildErr.generic
          ("unknown template name: \"" ++ t ++ "\"")) := by
  simp only [GenerateDocs, hp]
  rw [if_neg (by simp [h1]), if_neg (by simp [h2])]

/-- Witness for C3 (amended): the empty root mapping parses, and the template
name `bogus` is then reported as unknown. -/
theorem generateDocs_unknown_template_w :
    GenerateDocs (yMap []) "bogus"
      = Except.error (BuildErr.generic
          ("unknown template name: \"" ++ "bogus" ++ "\"")) :=
  generateDocs_unknown_template (yMap []) "bogus"
    (DocNode.mk "" "" false 0 "" "" "" [])
    (by simp [Parse, parseNodeContent, parseKeys, yMap, YamlNode.kind,
      YamlNode.content])
    (by decide) (by decide)

/-- The content of the paired value is smaller than the whole content list
(shared helper for the tree induction). -/
theorem sizeOf_yamlNext_content_lt (content : List YamlNode) (idx : Nat)
    (h : idx + 1 < content.length) :
    sizeOf (yamlNext content idx h).content < sizeOf content := by
  have hy : ∀ y : YamlNode, sizeOf y.content < sizeOf y := by
    intro y
    rcases y with ⟨k, t, v, hc, col, cont⟩
    simp only [YamlNode.content, YamlNode.mk.sizeOf_spec]
    omega
  exact Nat.lt_trans (hy _) (List.sizeOf_lt_of_mem (List.get_mem _ _ _))

/-- Joint induction (shared helper for C2): every tree successfully built by
`buildDocNode` / `parseKeys` satisfies `treeOK`: no node of it has both a
non-empty `Default` and non-empty `Children`. -/
theorem build_treeOK_aux : ∀ (N : Nat) (content : List YamlNode),
    sizeOf content ≤ N →
    (∀ (idx : Nat) (curr : YamlNode) (pb : String) (pwm : Bool) (d : DocNode),
      buildDocNode idx curr content pb pwm = Except.ok d → treeOK d = true) ∧
    (∀ (i : Nat) (pb : String) (pwm : Bool) (ds : List DocNode),
      parseKeys i content pb pwm = Except.ok ds → treeOKList ds = true) := by
  intro N
  induction N with
  | zero =>
    intro content hc
    exfalso
    have hpos : 0 < sizeOf content := by
      cases content <;> simp_arith
    omega
  | succ N ih =>
    intro content hc
    have hbuild : ∀ (idx : Nat) (curr : YamlNode) (pb : String) (pwm : Bool)
        (d : DocNode),
        buildDocNode idx curr content pb pwm = Except.ok d → treeOK d = true := by
      intro idx curr pb pwm d h
      rw [buildDocNode.eq_def] at h
      split at h
      · cases h
        rfl
      · split at h
        · simp at h
        · split at h
          · simp at h
          · split at h
            · -- scalar leaf
              cases h
              simp [treeOK, treeOKList]
            · -- mapping: recurse
              split at h
              · simp at h
              · rename_i children hch
                cases h
                simp only [treeOK, treeOKList]
                rw [parseNodeContent.eq_def] at hch
                have hok := (ih _ (Nat.le_of_lt_succ
                  (Nat.lt_of_lt_of_le (sizeOf_yamlNext_content_lt _ _ _) hc))).2
                  0 _ false children hch
                simp [hok]
            · -- sequence
              split at h
              · -- empty sequence leaf
                cases h
                simp [treeOK, treeOKList]
              · split at h
                · -- all-scalar sequence leaf
                  split at h
                  · rename_i e he
                    simp [toInlineYaml] at he
                  · rename_i inl hinl
                    cases h
                    simp [treeOK, treeOKList]
                · -- mixed sequence: recurse
                  split at h
                  · simp at h
                  · rename_i children hch
                    cases h
                    simp only [treeOK, treeOKList]
                    rw [parseNodeContent.eq_def] at hch
                    have hok := (ih _ (Nat.le_of_lt_succ
                      (Nat.lt_of_lt_of_le (sizeOf_yamlNext_content_lt _ _ _) hc))).2
                      0 _ false children hch
                    simp [hok]
            · -- fell-through error
              simp at h
    have hkeys : ∀ (k i : Nat) (pb : String) (pwm : Bool) (ds : List DocNode),
        content.length ≤ i + k → parseKeys i content pb pwm = Except.ok ds →
        treeOKList ds = true := by
      intro k
      induction k with
      | zero =>
        intro i pb pwm ds hlen h
        rw [parseKeys.eq_def, dif_neg (by omega)] at h
        cases h
        rfl
      | succ k ihk =>
        intro i pb pwm ds hlen h
        rw [parseKeys.eq_def] at h
        by_cases hi : i < content.length
        · rw [dif_pos hi] at h
          split at h
          · simp at h
          · rename_i d0 hd0
            split at h
            · simp at h
            · rename_i ds0 hds0
              cases h
              simp only [treeOKList, Bool.and_eq_true]
              exact ⟨hbuild _ _ _ _ _ hd0, ihk (i + 2) pb pwm ds0 (by omega) hds0⟩
        · rw [dif_neg hi] at h
          cases h
          rfl
    exact ⟨hbuild, fun i pb pwm ds h =>
      hkeys content.length i pb pwm ds (by omega) h⟩

/-- Counterexample for C2: a key whose paired value is an empty mapping (the
spec 8 example `c: {}`) yields a node with an empty `Default` AND empty
`Children` — neither a non-empty default nor non-empty children — and its
comment carries no annotation, so it is not the claimed exception. -/
theorem docNode_leaf_or_container_cex :
    buildDocNode 0 (yKey "c" "") [yKey "c" "", yMap []] "" true
      = Except.ok (DocNode.mk "c" "" true 1 "" "!!map" "" [])
    ∧ (DocNode.mk "c" "" true 1 "" "!!map" "" []).Default = ""
    ∧ (DocNode.mk "c" "" true 1 "" "!!map" "" []).Children = []
    ∧ recurseDirective (yKey "c" "").headComment = none := by
  refine ⟨?_, rfl, rfl, by decide⟩
  have h1 : recurseDirective "" = none := by decide
  simp [buildDocNode, parseNodeContent, parseKeys, yamlNext, yKey, yMap, h1,
    List.get, YamlNode.kind, YamlNode.value, YamlNode.tag,
    YamlNode.headComment, YamlNode.column, YamlNode.content]

/-- C2 (amended): no DocNode produced by `buildDocNode` — anywhere in the
returned tree — has both a non-empty `Default` and non-empty `Children`; a
node may however have both empty (an empty-mapping value, or the
`@recurse: false` branch whose `Default` is also empty). -/
theorem buildDocNode_never_both (idx : Nat) (curr : YamlNode)
    (content : List YamlNode) (pb : String) (pwm : Bool) (d : DocNode)
    (h : buildDocNode idx curr content pb pwm = Except.ok d) :
    treeOK d = true :=
  (build_treeOK_aux (sizeOf content) content (Nat.le_refl _)).1 idx curr pb pwm d h

/-- Witness for C2 (amended): the invariant evaluated on the tree built for
`a: {b: 1}`. -/
theorem buildDocNode_never_both_w :
    treeOK (DocNode.mk "a" "" false 1 "" "!!map" ""
      [DocNode.mk "b" ("" ++ "-" ++ String.toLower "a") false 1 "" "!!str" "1" []])
      = true :=
  buildDocNode_never_both 0 (yKey "a" "") [yKey "a" "", yMap [yKey "b" "", yStr "1"]]
    "" false _ (by
      have h1 : recurseDirective "" = none := by decide
      simp [buildDocNode, parseNodeContent, parseKeys, yamlNext, yKey, yStr, yMap,
        h1, List.get, YamlNode.kind, YamlNode.value, YamlNode.tag,
        YamlNode.headComment, YamlNode.column, YamlNode.content,
        DocNode.HTMLAnchor, DocNode.ParentBreadcrumb, DocNode.Key])
